import Mathlib

/-!
Verification of the VDM (vector dark matter) model class of BSMPT
(`src/models/ClassPotentialVDM.cpp`) against its specification.

The scalar sector has `NHiggs = 6` real field directions; `VevOrder = [2, 4]`
places the electroweak VEV at field index 2 and the hidden-sector VEV at
index 4.  Machine doubles are modelled as real numbers; every division whose
divisor the code assumes nonzero carries an explicit nonzero hypothesis.
-/

open Matrix

noncomputable section

namespace VDM

/-- Subset of the SM constants record (`SMparam.h`, not part of src/) used by
`Class_VDM`: the zero-temperature electroweak VEV `C_vev0`.  Its numeric value
is external to the sources at hand, so it is kept abstract. -/
structure ISMConstants where
  C_vev0 : ℝ

/-- Members of `Class_VDM` written by `set_gen`: the two VEVs, the quartic
couplings `lambdaH`, `lambdaS`, the portal coupling `kappa`, the hidden gauge
coupling `gX`, the mass-squared parameters fixed by the tadpole conditions,
and the renormalisation scale. -/
structure GenParams where
  v : ℝ
  vs : ℝ
  lambdaH : ℝ
  kappa : ℝ
  lambdaS : ℝ
  gX : ℝ
  muHSq : ℝ
  muSSq : ℝ
  scale : ℝ

/-- Embedding of `Class_VDM::set_gen` (ClassPotentialVDM.cpp:225-277).
Input ordering produced by `ReadAndSet`:
`par = [MH1, MH2, v, vs, alpha, MX]`.  Note that the member `v` is
overwritten with `SMConstants.C_vev0` while `lambdaH` and `kappa` divide by
the input VEV `par 2`. -/
def set_gen (SMConstants : ISMConstants) (par : Fin 6 → ℝ) : GenParams :=
  let v := SMConstants.C_vev0
  let vs := par 3
  let lambdaH := (par 0 * par 0 * Real.cos (par 4) * Real.cos (par 4) +
      par 1 * par 1 * Real.sin (par 4) * Real.sin (par 4)) / (2 * par 2 * par 2)
  let kappa := (par 0 * par 0 - par 1 * par 1) * Real.sin (par 4) *
      Real.cos (par 4) / (par 2 * par 3)
  let lambdaS := (par 1 * par 1 * Real.cos (par 4) * Real.cos (par 4) +
      par 0 * par 0 * Real.sin (par 4) * Real.sin (par 4)) / (2 * par 3 * par 3)
  let gX := par 5 / par 3
  let muHSq := vs * vs * kappa / 2 + v * v * lambdaH
  let muSSq := kappa * v * v / 2 + lambdaS * vs * vs
  { v := v, vs := vs, lambdaH := lambdaH, kappa := kappa, lambdaS := lambdaS,
    gX := gX, muHSq := muHSq, muSSq := muSSq, scale := v }

/-- Modelled from the spec: `MinimizeOrderVEV` (base class, absent from src/)
expands the reduced `nVEV = 2` vector into the `NHiggs = 6` field space using
`VevOrder[0] = 2`, `VevOrder[1] = 4`; positions not designated by `VevOrder`
are zero (spec section 3, VEVConfiguration). -/
def MinimizeOrderVEV (vmin : Fin 2 → ℝ) : Fin 6 → ℝ :=
  fun i => match i with
  | 2 => vmin 0
  | 4 => vmin 1
  | _ => 0

/-- The reduced VEV vector `vevTreeMin` as set by `set_gen` (lines 272-273): `[v, vs]`. -/
def vevTreeMin (g : GenParams) : Fin 2 → ℝ := ![g.v, g.vs]

/-- The frozen tree-level VEV configuration `vevTree` (line 275). -/
def vevTree (g : GenParams) : Fin 6 → ℝ := MinimizeOrderVEV (vevTreeMin g)

/-- Members of `Class_VDM` written by `ReadAndSet` before it calls
`set_gen`. -/
structure InputMembers where
  MH1 : ℝ
  MH2 : ℝ
  MX : ℝ
  alpha : ℝ
  v : ℝ
  gX : ℝ
  vs : ℝ

/-- C++11 stream-extraction semantics used by `ReadAndSet`: an extraction
that fails (record exhausted) stores 0 in the target, and every subsequent
extraction on the failed stream leaves that 0 in place.  A record with `n`
numeric fields therefore yields field `k` when `k < n` and 0 otherwise. -/
def streamRead (fields : List ℝ) (k : Nat) : ℝ := fields.getD k 0

/-- Embedding of the member assignments of `Class_VDM::ReadAndSet`
(lines 166-216): the six numeric fields of the record (after the optional
index column) are read, in order, into `MH1, MH2, MX, alpha, v, gX`, and then
`vs = MX / gX`. -/
def ReadAndSet_members (UseIndexCol : Bool) (fields : List ℝ) : InputMembers :=
  let f := if UseIndexCol then fields.drop 1 else fields
  { MH1 := streamRead f 0
    MH2 := streamRead f 1
    MX := streamRead f 2
    alpha := streamRead f 3
    v := streamRead f 4
    gX := streamRead f 5
    vs := streamRead f 2 / streamRead f 5 }

/-- The `par` vector built by `ReadAndSet` (lines 211-216):
`[MH1, MH2, v, vs, alpha, MX]`. -/
def ReadAndSet_par (m : InputMembers) : Fin 6 → ℝ :=
  ![m.MH1, m.MH2, m.v, m.vs, m.alpha, m.MX]

/-- Embedding of `Class_VDM::ReadAndSet` (lines 166-220): member
assignments, construction of `par`, then the mandatory `set_gen` call.
There is no error path: short or malformed records flow through
unconditionally. -/
def ReadAndSet (SMConstants : ISMConstants) (UseIndexCol : Bool)
    (fields : List ℝ) : GenParams :=
  set_gen SMConstants (ReadAndSet_par (ReadAndSet_members UseIndexCol fields))

/-- Embedding of `Class_VDM::addLegendCT` (lines 77-92). -/
def addLegendCT : List String :=
  ["dmuHSq", "dlambdaH", "dmuSSq", "dlambdaS", "dkappa",
   "dT1", "dT2", "dT3", "dT4", "dT5", "dT6"]

/-- The 11 counterterm parameters of the VDM model. -/
structure CTParams where
  dmuHSq : ℝ
  dlambdaH : ℝ
  dkappa : ℝ
  dmuSSq : ℝ
  dlambdaS : ℝ
  dT1 : ℝ
  dT2 : ℝ
  dT3 : ℝ
  dT4 : ℝ
  dT5 : ℝ
  dT6 : ℝ

/-- Embedding of the parameter assignments of `Class_VDM::set_CT_Pot_Par`
(lines 286-296, the active block): `par[2]` is `dkappa`, `par[3]` is
`dmuSSq`, `par[4]` is `dlambdaS`. -/
def set_CT_Pot_Par (par : Fin 11 → ℝ) : CTParams :=
  { dmuHSq := par 0
    dlambdaH := par 1
    dkappa := par 2
    dmuSSq := par 3
    dlambdaS := par 4
    dT1 := par 5
    dT2 := par 6
    dT3 := par 7
    dT4 := par 8
    dT5 := par 9
    dT6 := par 10 }

/-- The counterterm formulas of `Class_VDM::calc_CT` (lines 622-636, the
active block), as a function of the members `v`, `vs` and the externally
supplied one-loop gradient `NablaWeinberg` and Hessian `HesseWeinberg`. -/
def calc_CT_par (v vs : ℝ) (NablaWeinberg : Fin 6 → ℝ)
    (HesseWeinberg : Fin 6 → Fin 6 → ℝ) : Fin 11 → ℝ :=
  ![(-HesseWeinberg 2 2 * v - HesseWeinberg 2 4 * vs +
      3 * HesseWeinberg 3 3 * v) / v / 2,
    (-HesseWeinberg 2 2 + HesseWeinberg 3 3) * (v ^ 2)⁻¹ / 2,
    -HesseWeinberg 2 4 / v / vs,
    (-HesseWeinberg 2 4 * v -
      vs * (HesseWeinberg 4 4 - 3 * HesseWeinberg 5 5)) / vs / 2,
    (-HesseWeinberg 4 4 + HesseWeinberg 5 5) * (vs ^ 2)⁻¹ / 2,
    -NablaWeinberg 0,
    -NablaWeinberg 1,
    HesseWeinberg 3 3 * v - NablaWeinberg 2,
    -NablaWeinberg 3,
    HesseWeinberg 5 5 * vs - NablaWeinberg 4,
    -NablaWeinberg 5]

/-- The two lifecycle gates carried by a model instance. -/
structure ModelState where
  SetCurvatureDone : Bool
  CalcCouplingsdone : Bool

/-- Modelled from the spec: a freshly constructed model instance has neither
gate set (spec section 4.5 lifecycle; the base-class constructor is absent
from src/). -/
def freshModelState : ModelState := { SetCurvatureDone := false, CalcCouplingsdone := false }

/-- Embedding of `Class_VDM::calc_CT` (lines 588-667): both gates are
checked up front and a violation raises a runtime error; otherwise the
counterterm vector is computed from the one-loop derivative data. -/
def calc_CT (st : ModelState) (v vs : ℝ) (NablaWeinberg : Fin 6 → ℝ)
    (HesseWeinberg : Fin 6 → Fin 6 → ℝ) : Except String (Fin 11 → ℝ) :=
  if st.SetCurvatureDone = false then
    Except.error ("calc_CT was called before SetCurvatureArrays()!")
  else if st.CalcCouplingsdone = false then
    Except.error ("calc_CT was called before CalculatePhysicalCouplings()!")
  else
    Except.ok (calc_CT_par v vs NablaWeinberg HesseWeinberg)

/-- Gate handling at the entry of `Class_VDM::TripleHiggsCouplings`
(lines 671-672): a missing prerequisite is computed on the spot —
`SetCurvatureArrays()` sets `SetCurvatureDone` (line 1386), and
`CalculatePhysicalCouplings()` sets `CalcCouplingsdone` (modelled from the
spec: the external diagonalization step sets that gate) — and no
precondition error is ever raised. -/
def TripleHiggsCouplings_entry (st : ModelState) : Except String ModelState :=
  let st1 := if st.SetCurvatureDone then st else { st with SetCurvatureDone := true }
  let st2 := if st1.CalcCouplingsdone then st1 else { st1 with CalcCouplingsdone := true }
  Except.ok st2

/-- Integer coefficient table of the rank-4 Higgs curvature tensor assigned
by `Class_VDM::SetCurvatureArrays` (lines 1092-1187): the entry at
`(i, j, k, l)` is the coefficient triple `(c1, c2, c3)` with
`Curvature_Higgs_L4[i][j][k][l] = c1*lambdaH + c2*lambdaS + c3*kappa`;
indices never assigned in the source are zero (`initVectors`
zero-initializes every tensor; spec section 3: absent entries are zero). -/
def Curvature_Higgs_L4c : Fin 6 → Fin 6 → Fin 6 → Fin 6 → ℤ × ℤ × ℤ :=
  fun i j k l => match i, j, k, l with
  | 0, 0, 0, 0 => (6, 0, 0)
  | 0, 0, 1, 1 => (2, 0, 0)
  | 0, 0, 2, 2 => (2, 0, 0)
  | 0, 0, 3, 3 => (2, 0, 0)
  | 0, 0, 4, 4 => (0, 0, 1)
  | 0, 0, 5, 5 => (0, 0, 1)
  | 0, 1, 0, 1 => (2, 0, 0)
  | 0, 1, 1, 0 => (2, 0, 0)
  | 0, 2, 0, 2 => (2, 0, 0)
  | 0, 2, 2, 0 => (2, 0, 0)
  | 0, 3, 0, 3 => (2, 0, 0)
  | 0, 3, 3, 0 => (2, 0, 0)
  | 0, 4, 0, 4 => (0, 0, 1)
  | 0, 4, 4, 0 => (0, 0, 1)
  | 0, 5, 0, 5 => (0, 0, 1)
  | 0, 5, 5, 0 => (0, 0, 1)
  | 1, 0, 0, 1 => (2, 0, 0)
  | 1, 0, 1, 0 => (2, 0, 0)
  | 1, 1, 0, 0 => (2, 0, 0)
  | 1, 1, 1, 1 => (6, 0, 0)
  | 1, 1, 2, 2 => (2, 0, 0)
  | 1, 1, 3, 3 => (2, 0, 0)
  | 1, 1, 4, 4 => (0, 0, 1)
  | 1, 1, 5, 5 => (0, 0, 1)
  | 1, 2, 1, 2 => (2, 0, 0)
  | 1, 2, 2, 1 => (2, 0, 0)
  | 1, 3, 1, 3 => (2, 0, 0)
  | 1, 3, 3, 1 => (2, 0, 0)
  | 1, 4, 1, 4 => (0, 0, 1)
  | 1, 4, 4, 1 => (0, 0, 1)
  | 1, 5, 1, 5 => (0, 0, 1)
  | 1, 5, 5, 1 => (0, 0, 1)
  | 2, 0, 0, 2 => (2, 0, 0)
  | 2, 0, 2, 0 => (2, 0, 0)
  | 2, 1, 1, 2 => (2, 0, 0)
  | 2, 1, 2, 1 => (2, 0, 0)
  | 2, 2, 0, 0 => (2, 0, 0)
  | 2, 2, 1, 1 => (2, 0, 0)
  | 2, 2, 2, 2 => (6, 0, 0)
  | 2, 2, 3, 3 => (2, 0, 0)
  | 2, 2, 4, 4 => (0, 0, 1)
  | 2, 2, 5, 5 => (0, 0, 1)
  | 2, 3, 2, 3 => (2, 0, 0)
  | 2, 3, 3, 2 => (2, 0, 0)
  | 2, 4, 2, 4 => (0, 0, 1)
  | 2, 4, 4, 2 => (0, 0, 1)
  | 2, 5, 2, 5 => (0, 0, 1)
  | 2, 5, 5, 2 => (0, 0, 1)
  | 3, 0, 0, 3 => (2, 0, 0)
  | 3, 0, 3, 0 => (2, 0, 0)
  | 3, 1, 1, 3 => (2, 0, 0)
  | 3, 1, 3, 1 => (2, 0, 0)
  | 3, 2, 2, 3 => (2, 0, 0)
  | 3, 2, 3, 2 => (2, 0, 0)
  | 3, 3, 0, 0 => (2, 0, 0)
  | 3, 3, 1, 1 => (2, 0, 0)
  | 3, 3, 2, 2 => (2, 0, 0)
  | 3, 3, 3, 3 => (6, 0, 0)
  | 3, 3, 4, 4 => (0, 0, 1)
  | 3, 3, 5, 5 => (0, 0, 1)
  | 3, 4, 3, 4 => (0, 0, 1)
  | 3, 4, 4, 3 => (0, 0, 1)
  | 3, 5, 3, 5 => (0, 0, 1)
  | 3, 5, 5, 3 => (0, 0, 1)
  | 4, 0, 0, 4 => (0, 0, 1)
  | 4, 0, 4, 0 => (0, 0, 1)
  | 4, 1, 1, 4 => (0, 0, 1)
  | 4, 1, 4, 1 => (0, 0, 1)
  | 4, 2, 2, 4 => (0, 0, 1)
  | 4, 2, 4, 2 => (0, 0, 1)
  | 4, 3, 3, 4 => (0, 0, 1)
  | 4, 3, 4, 3 => (0, 0, 1)
  | 4, 4, 0, 0 => (0, 0, 1)
  | 4, 4, 1, 1 => (0, 0, 1)
  | 4, 4, 2, 2 => (0, 0, 1)
  | 4, 4, 3, 3 => (0, 0, 1)
  | 4, 4, 4, 4 => (0, 6, 0)
  | 4, 4, 5, 5 => (0, 2, 0)
  | 4, 5, 4, 5 => (0, 2, 0)
  | 4, 5, 5, 4 => (0, 2, 0)
  | 5, 0, 0, 5 => (0, 0, 1)
  | 5, 0, 5, 0 => (0, 0, 1)
  | 5, 1, 1, 5 => (0, 0, 1)
  | 5, 1, 5, 1 => (0, 0, 1)
  | 5, 2, 2, 5 => (0, 0, 1)
  | 5, 2, 5, 2 => (0, 0, 1)
  | 5, 3, 3, 5 => (0, 0, 1)
  | 5, 3, 5, 3 => (0, 0, 1)
  | 5, 4, 4, 5 => (0, 2, 0)
  | 5, 4, 5, 4 => (0, 2, 0)
  | 5, 5, 0, 0 => (0, 0, 1)
  | 5, 5, 1, 1 => (0, 0, 1)
  | 5, 5, 2, 2 => (0, 0, 1)
  | 5, 5, 3, 3 => (0, 0, 1)
  | 5, 5, 4, 4 => (0, 2, 0)
  | 5, 5, 5, 5 => (0, 6, 0)
  | _, _, _, _ => (0, 0, 0)

/-- The rank-4 Higgs curvature tensor `Curvature_Higgs_L4` populated by
`SetCurvatureArrays` (lines 1092-1187). -/
def Curvature_Higgs_L4 (g : GenParams) (i j k l : Fin 6) : ℝ :=
  ((Curvature_Higgs_L4c i j k l).1 : ℝ) * g.lambdaH +
  ((Curvature_Higgs_L4c i j k l).2.1 : ℝ) * g.lambdaS +
  ((Curvature_Higgs_L4c i j k l).2.2 : ℝ) * g.kappa

/-- Integer coefficient table of the rank-4 counterterm curvature tensor
assigned by `Class_VDM::set_CT_Pot_Par` (lines 438-533): the entry at
`(i, j, k, l)` is `(c1, c2, c3)` with
`Curvature_Higgs_CT_L4[i][j][k][l] = c1*dlambdaH + c2*dlambdaS + c3*dkappa`;
unassigned indices are zero. -/
def Curvature_Higgs_CT_L4c : Fin 6 → Fin 6 → Fin 6 → Fin 6 → ℤ × ℤ × ℤ :=
  fun i j k l => match i, j, k, l with
  | 0, 0, 0, 0 => (6, 0, 0)
  | 0, 0, 1, 1 => (2, 0, 0)
  | 0, 0, 2, 2 => (2, 0, 0)
  | 0, 0, 3, 3 => (2, 0, 0)
  | 0, 0, 4, 4 => (0, 0, 1)
  | 0, 0, 5, 5 => (0, 0, 1)
  | 0, 1, 0, 1 => (2, 0, 0)
  | 0, 1, 1, 0 => (2, 0, 0)
  | 0, 2, 0, 2 => (2, 0, 0)
  | 0, 2, 2, 0 => (2, 0, 0)
  | 0, 3, 0, 3 => (2, 0, 0)
  | 0, 3, 3, 0 => (2, 0, 0)
  | 0, 4, 0, 4 => (0, 0, 1)
  | 0, 4, 4, 0 => (0, 0, 1)
  | 0, 5, 0, 5 => (0, 0, 1)
  | 0, 5, 5, 0 => (0, 0, 1)
  | 1, 0, 0, 1 => (2, 0, 0)
  | 1, 0, 1, 0 => (2, 0, 0)
  | 1, 1, 0, 0 => (2, 0, 0)
  | 1, 1, 1, 1 => (6, 0, 0)
  | 1, 1, 2, 2 => (2, 0, 0)
  | 1, 1, 3, 3 => (2, 0, 0)
  | 1, 1, 4, 4 => (0, 0, 1)
  | 1, 1, 5, 5 => (0, 0, 1)
  | 1, 2, 1, 2 => (2, 0, 0)
  | 1, 2, 2, 1 => (2, 0, 0)
  | 1, 3, 1, 3 => (2, 0, 0)
  | 1, 3, 3, 1 => (2, 0, 0)
  | 1, 4, 1, 4 => (0, 0, 1)
  | 1, 4, 4, 1 => (0, 0, 1)
  | 1, 5, 1, 5 => (0, 0, 1)
  | 1, 5, 5, 1 => (0, 0, 1)
  | 2, 0, 0, 2 => (2, 0, 0)
  | 2, 0, 2, 0 => (2, 0, 0)
  | 2, 1, 1, 2 => (2, 0, 0)
  | 2, 1, 2, 1 => (2, 0, 0)
  | 2, 2, 0, 0 => (2, 0, 0)
  | 2, 2, 1, 1 => (2, 0, 0)
  | 2, 2, 2, 2 => (6, 0, 0)
  | 2, 2, 3, 3 => (2, 0, 0)
  | 2, 2, 4, 4 => (0, 0, 1)
  | 2, 2, 5, 5 => (0, 0, 1)
  | 2, 3, 2, 3 => (2, 0, 0)
  | 2, 3, 3, 2 => (2, 0, 0)
  | 2, 4, 2, 4 => (0, 0, 1)
  | 2, 4, 4, 2 => (0, 0, 1)
  | 2, 5, 2, 5 => (0, 0, 1)
  | 2, 5, 5, 2 => (0, 0, 1)
  | 3, 0, 0, 3 => (2, 0, 0)
  | 3, 0, 3, 0 => (2, 0, 0)
  | 3, 1, 1, 3 => (2, 0, 0)
  | 3, 1, 3, 1 => (2, 0, 0)
  | 3, 2, 2, 3 => (2, 0, 0)
  | 3, 2, 3, 2 => (2, 0, 0)
  | 3, 3, 0, 0 => (2, 0, 0)
  | 3, 3, 1, 1 => (2, 0, 0)
  | 3, 3, 2, 2 => (2, 0, 0)
  | 3, 3, 3, 3 => (6, 0, 0)
  | 3, 3, 4, 4 => (0, 0, 1)
  | 3, 3, 5, 5 => (0, 0, 1)
  | 3, 4, 3, 4 => (0, 0, 1)
  | 3, 4, 4, 3 => (0, 0, 1)
  | 3, 5, 3, 5 => (0, 0, 1)
  | 3, 5, 5, 3 => (0, 0, 1)
  | 4, 0, 0, 4 => (0, 0, 1)
  | 4, 0, 4, 0 => (0, 0, 1)
  | 4, 1, 1, 4 => (0, 0, 1)
  | 4, 1, 4, 1 => (0, 0, 1)
  | 4, 2, 2, 4 => (0, 0, 1)
  | 4, 2, 4, 2 => (0, 0, 1)
  | 4, 3, 3, 4 => (0, 0, 1)
  | 4, 3, 4, 3 => (0, 0, 1)
  | 4, 4, 0, 0 => (0, 0, 1)
  | 4, 4, 1, 1 => (0, 0, 1)
  | 4, 4, 2, 2 => (0, 0, 1)
  | 4, 4, 3, 3 => (0, 0, 1)
  | 4, 4, 4, 4 => (0, 6, 0)
  | 4, 4, 5, 5 => (0, 2, 0)
  | 4, 5, 4, 5 => (0, 2, 0)
  | 4, 5, 5, 4 => (0, 2, 0)
  | 5, 0, 0, 5 => (0, 0, 1)
  | 5, 0, 5, 0 => (0, 0, 1)
  | 5, 1, 1, 5 => (0, 0, 1)
  | 5, 1, 5, 1 => (0, 0, 1)
  | 5, 2, 2, 5 => (0, 0, 1)
  | 5, 2, 5, 2 => (0, 0, 1)
  | 5, 3, 3, 5 => (0, 0, 1)
  | 5, 3, 5, 3 => (0, 0, 1)
  | 5, 4, 4, 5 => (0, 2, 0)
  | 5, 4, 5, 4 => (0, 2, 0)
  | 5, 5, 0, 0 => (0, 0, 1)
  | 5, 5, 1, 1 => (0, 0, 1)
  | 5, 5, 2, 2 => (0, 0, 1)
  | 5, 5, 3, 3 => (0, 0, 1)
  | 5, 5, 4, 4 => (0, 2, 0)
  | 5, 5, 5, 5 => (0, 6, 0)
  | _, _, _, _ => (0, 0, 0)

/-- The rank-4 counterterm curvature tensor `Curvature_Higgs_CT_L4`
populated by `set_CT_Pot_Par` (lines 438-533). -/
def Curvature_Higgs_CT_L4 (ct : CTParams) (i j k l : Fin 6) : ℝ :=
  ((Curvature_Higgs_CT_L4c i j k l).1 : ℝ) * ct.dlambdaH +
  ((Curvature_Higgs_CT_L4c i j k l).2.1 : ℝ) * ct.dlambdaS +
  ((Curvature_Higgs_CT_L4c i j k l).2.2 : ℝ) * ct.dkappa

/-- The rank-4 coefficient table as a function of the sorted index list
alone (one case per index multiset occurring in the source listing).  Both
`Curvature_Higgs_L4c` and `Curvature_Higgs_CT_L4c` are proved below to
factor through this key, which is what makes them fully index-symmetric. -/
def L4keyList : List (Fin 6) → ℤ × ℤ × ℤ :=
  fun l => match l with
  | [0, 0, 0, 0] => (6, 0, 0)
  | [0, 0, 1, 1] => (2, 0, 0)
  | [0, 0, 2, 2] => (2, 0, 0)
  | [0, 0, 3, 3] => (2, 0, 0)
  | [0, 0, 4, 4] => (0, 0, 1)
  | [0, 0, 5, 5] => (0, 0, 1)
  | [1, 1, 1, 1] => (6, 0, 0)
  | [1, 1, 2, 2] => (2, 0, 0)
  | [1, 1, 3, 3] => (2, 0, 0)
  | [1, 1, 4, 4] => (0, 0, 1)
  | [1, 1, 5, 5] => (0, 0, 1)
  | [2, 2, 2, 2] => (6, 0, 0)
  | [2, 2, 3, 3] => (2, 0, 0)
  | [2, 2, 4, 4] => (0, 0, 1)
  | [2, 2, 5, 5] => (0, 0, 1)
  | [3, 3, 3, 3] => (6, 0, 0)
  | [3, 3, 4, 4] => (0, 0, 1)
  | [3, 3, 5, 5] => (0, 0, 1)
  | [4, 4, 4, 4] => (0, 6, 0)
  | [4, 4, 5, 5] => (0, 2, 0)
  | [5, 5, 5, 5] => (0, 6, 0)
  | _ => (0, 0, 0)

/-- Canonical form of a rank-4 index tuple: its coefficient triple read off
the sorted index list. -/
def L4key (l : List (Fin 6)) : ℤ × ℤ × ℤ := L4keyList (l.insertionSort (· ≤ ·))

/-- The rank-1 Higgs curvature tensor: `SetCurvatureArrays` never assigns
`Curvature_Higgs_L1`, so it is identically zero (`initVectors`
zero-initialization; spec section 3: absent entries are zero). -/
def Curvature_Higgs_L1 : Fin 6 → ℝ := fun _ => 0

/-- The rank-2 Higgs curvature tensor assigned by `SetCurvatureArrays`
(lines 1085-1090). -/
def Curvature_Higgs_L2 (g : GenParams) : Fin 6 → Fin 6 → ℝ :=
  fun i j => match i, j with
  | 0, 0 => -g.muHSq
  | 1, 1 => -g.muHSq
  | 2, 2 => -g.muHSq
  | 3, 3 => -g.muHSq
  | 4, 4 => -g.muSSq
  | 5, 5 => -g.muSSq
  | _, _ => 0

/-- The rank-3 Higgs curvature tensor: never assigned in the source, hence
identically zero. -/
def Curvature_Higgs_L3 : Fin 6 → Fin 6 → Fin 6 → ℝ := fun _ _ _ => 0

/-- The rank-1 counterterm tensor assigned by `set_CT_Pot_Par`
(lines 424-429): the six tadpole counterterms. -/
def Curvature_Higgs_CT_L1 (ct : CTParams) : Fin 6 → ℝ :=
  ![ct.dT1, ct.dT2, ct.dT3, ct.dT4, ct.dT5, ct.dT6]

/-- The rank-2 counterterm tensor assigned by `set_CT_Pot_Par`
(lines 431-436). -/
def Curvature_Higgs_CT_L2 (ct : CTParams) : Fin 6 → Fin 6 → ℝ :=
  fun i j => match i, j with
  | 0, 0 => -ct.dmuHSq
  | 1, 1 => -ct.dmuHSq
  | 2, 2 => -ct.dmuHSq
  | 3, 3 => -ct.dmuHSq
  | 4, 4 => -ct.dmuSSq
  | 5, 5 => -ct.dmuSSq
  | _, _ => 0

/-- The rank-3 counterterm tensor: never assigned in the source, hence
identically zero. -/
def Curvature_Higgs_CT_L3 : Fin 6 → Fin 6 → Fin 6 → ℝ := fun _ _ _ => 0

/-- Modelled from the spec: gradient of a curvature-tensor potential
`V = Σ (1/k!) T_(i1..ik) φ_i1 ⋯ φ_ik` (spec section 4.2) in direction `i` at
the field point `φ`.  The repository computes these derivatives in the base
class (absent from src/); this is the closed form for rank ≤ 4. -/
def gradV (L1 : Fin 6 → ℝ) (L2 : Fin 6 → Fin 6 → ℝ)
    (L3 : Fin 6 → Fin 6 → Fin 6 → ℝ) (L4 : Fin 6 → Fin 6 → Fin 6 → Fin 6 → ℝ)
    (φ : Fin 6 → ℝ) (i : Fin 6) : ℝ :=
  L1 i + (∑ j, L2 i j * φ j) +
    (1 / 2 : ℝ) * (∑ j, ∑ k, L3 i j k * φ j * φ k) +
    (1 / 6 : ℝ) * (∑ j, ∑ k, ∑ l, L4 i j k l * φ j * φ k * φ l)

/-- Modelled from the spec: Hessian of a curvature-tensor potential
(spec section 4.2) at entry `(i, j)` and field point `φ`. -/
def hessV (L2 : Fin 6 → Fin 6 → ℝ) (L3 : Fin 6 → Fin 6 → Fin 6 → ℝ)
    (L4 : Fin 6 → Fin 6 → Fin 6 → Fin 6 → ℝ)
    (φ : Fin 6 → ℝ) (i j : Fin 6) : ℝ :=
  L2 i j + (∑ k, L3 i j k * φ k) +
    (1 / 2 : ℝ) * (∑ k, ∑ l, L4 i j k l * φ k * φ l)

/-- Gradient of the tree-level potential at field point `φ`. -/
def treeGrad (g : GenParams) (φ : Fin 6 → ℝ) (i : Fin 6) : ℝ :=
  gradV Curvature_Higgs_L1 (Curvature_Higgs_L2 g) Curvature_Higgs_L3
    (Curvature_Higgs_L4 g) φ i

/-- Gradient of the counterterm potential at field point `φ`. -/
def ctGrad (ct : CTParams) (φ : Fin 6 → ℝ) (i : Fin 6) : ℝ :=
  gradV (Curvature_Higgs_CT_L1 ct) (Curvature_Higgs_CT_L2 ct)
    Curvature_Higgs_CT_L3 (Curvature_Higgs_CT_L4 ct) φ i

/-- Hessian of the tree-level potential at field point `φ`. -/
def treeHess (g : GenParams) (φ : Fin 6 → ℝ) (i j : Fin 6) : ℝ :=
  hessV (Curvature_Higgs_L2 g) Curvature_Higgs_L3 (Curvature_Higgs_L4 g) φ i j

/-- Hessian of the counterterm potential at field point `φ`. -/
def ctHess (ct : CTParams) (φ : Fin 6 → ℝ) (i j : Fin 6) : ℝ :=
  hessV (Curvature_Higgs_CT_L2 ct) Curvature_Higgs_CT_L3
    (Curvature_Higgs_CT_L4 ct) φ i j

/-- The 2×2 block of the tree-level Hessian at the stored tree VEV,
restricted to the two VEV-carrying field directions 2 and 4. -/
def treeMassBlock (g : GenParams) : Matrix (Fin 2) (Fin 2) ℝ :=
  Matrix.of fun a b =>
    treeHess g (vevTree g) (![2, 4] a) (![2, 4] b)

/-- The rotation matrix `R(angle)` of the spec (section 4.1) block
diagonalization `M = R(angle) · diag(m1², m2²) · R(angle)ᵀ`. -/
def rotM (a : ℝ) : Matrix (Fin 2) (Fin 2) ℝ :=
  Matrix.of fun i j => match i, j with
  | 0, 0 => Real.cos a
  | 0, 1 => -Real.sin a
  | 1, 0 => Real.sin a
  | 1, 1 => Real.cos a

/-- A 2×2 diagonal matrix. -/
def diag2 (x y : ℝ) : Matrix (Fin 2) (Fin 2) ℝ :=
  Matrix.of fun i j => match i, j with
  | 0, 0 => x
  | 1, 1 => y
  | _, _ => 0

/-- The tree-level rank-4 coefficient table factors through the sorted index
multiset. -/
theorem Curvature_Higgs_L4c_key :
    ∀ i j k l : Fin 6, Curvature_Higgs_L4c i j k l = L4key [i, j, k, l] := by
  decide

/-- The counterterm rank-4 coefficient table factors through the sorted index
multiset. -/
theorem Curvature_Higgs_CT_L4c_key :
    ∀ i j k l : Fin 6, Curvature_Higgs_CT_L4c i j k l = L4key [i, j, k, l] := by
  decide

/-- `L4key` is invariant under permutations of the index list. -/
theorem L4key_perm {l1 l2 : List (Fin 6)} (h : l1.Perm l2) :
    L4key l1 = L4key l2 := by
  unfold L4key
  rw [List.eq_of_perm_of_sorted
    (((List.perm_insertionSort _ _).trans h).trans
      (List.perm_insertionSort _ _).symm)
    (List.sorted_insertionSort _ _) (List.sorted_insertionSort _ _)]

/-- Contraction of a rank-1 slice against the expanded VEV vector. -/
theorem contract1 (T : Fin 6 → ℝ) (m : Fin 2 → ℝ) :
    (∑ j, T j * MinimizeOrderVEV m j) = T 2 * m 0 + T 4 * m 1 := by
  simp only [Fin.sum_univ_six,
    show MinimizeOrderVEV m 0 = 0 from rfl, show MinimizeOrderVEV m 1 = 0 from rfl,
    show MinimizeOrderVEV m 2 = m 0 from rfl, show MinimizeOrderVEV m 3 = 0 from rfl,
    show MinimizeOrderVEV m 4 = m 1 from rfl, show MinimizeOrderVEV m 5 = 0 from rfl]
  ring

/-- Contraction of a rank-2 slice against the expanded VEV vector. -/
theorem contract2 (T : Fin 6 → Fin 6 → ℝ) (m : Fin 2 → ℝ) :
    (∑ j, ∑ k, T j k * MinimizeOrderVEV m j * MinimizeOrderVEV m k) =
      T 2 2 * m 0 * m 0 + T 2 4 * m 0 * m 1 +
        T 4 2 * m 1 * m 0 + T 4 4 * m 1 * m 1 := by
  simp only [Fin.sum_univ_six,
    show MinimizeOrderVEV m 0 = 0 from rfl, show MinimizeOrderVEV m 1 = 0 from rfl,
    show MinimizeOrderVEV m 2 = m 0 from rfl, show MinimizeOrderVEV m 3 = 0 from rfl,
    show MinimizeOrderVEV m 4 = m 1 from rfl, show MinimizeOrderVEV m 5 = 0 from rfl]
  ring

/-- Contraction of a rank-3 slice against the expanded VEV vector. -/
theorem contract3 (T : Fin 6 → Fin 6 → Fin 6 → ℝ) (m : Fin 2 → ℝ) :
    (∑ j, ∑ k, ∑ l, T j k l * MinimizeOrderVEV m j * MinimizeOrderVEV m k *
        MinimizeOrderVEV m l) =
      T 2 2 2 * m 0 * m 0 * m 0 + T 2 2 4 * m 0 * m 0 * m 1 +
        T 2 4 2 * m 0 * m 1 * m 0 + T 2 4 4 * m 0 * m 1 * m 1 +
        T 4 2 2 * m 1 * m 0 * m 0 + T 4 2 4 * m 1 * m 0 * m 1 +
        T 4 4 2 * m 1 * m 1 * m 0 + T 4 4 4 * m 1 * m 1 * m 1 := by
  simp only [Fin.sum_univ_six,
    show MinimizeOrderVEV m 0 = 0 from rfl, show MinimizeOrderVEV m 1 = 0 from rfl,
    show MinimizeOrderVEV m 2 = m 0 from rfl, show MinimizeOrderVEV m 3 = 0 from rfl,
    show MinimizeOrderVEV m 4 = m 1 from rfl, show MinimizeOrderVEV m 5 = 0 from rfl]
  ring

/-- Entry `(2, 2)` of the tree-level Hessian at an expanded VEV point. -/
theorem treeHess_22 (g : GenParams) (m : Fin 2 → ℝ) :
    treeHess g (MinimizeOrderVEV m) 2 2 = -g.muHSq + 3 * g.lambdaH * m 0 * m 0 + g.kappa * m 1 * m 1 / 2 := by
  simp only [treeHess, hessV]
  simp only [contract2]
  simp only [contract1]
  simp only [Curvature_Higgs_L3, Curvature_Higgs_L4,
    show Curvature_Higgs_L2 g 2 2 = -g.muHSq from rfl,
    show Curvature_Higgs_L4c 2 2 2 2 = (6, 0, 0) from rfl,
    show Curvature_Higgs_L4c 2 2 2 4 = (0, 0, 0) from rfl,
    show Curvature_Higgs_L4c 2 2 4 2 = (0, 0, 0) from rfl,
    show Curvature_Higgs_L4c 2 2 4 4 = (0, 0, 1) from rfl]
  push_cast
  ring

/-- Entry `(2, 2)` of the counterterm Hessian at an expanded VEV point. -/
theorem ctHess_22 (ct : CTParams) (m : Fin 2 → ℝ) :
    ctHess ct (MinimizeOrderVEV m) 2 2 = -ct.dmuHSq + 3 * ct.dlambdaH * m 0 * m 0 + ct.dkappa * m 1 * m 1 / 2 := by
  simp only [ctHess, hessV]
  simp only [contract2]
  simp only [contract1]
  simp only [Curvature_Higgs_CT_L3, Curvature_Higgs_CT_L4,
    show Curvature_Higgs_CT_L2 ct 2 2 = -ct.dmuHSq from rfl,
    show Curvature_Higgs_CT_L4c 2 2 2 2 = (6, 0, 0) from rfl,
    show Curvature_Higgs_CT_L4c 2 2 2 4 = (0, 0, 0) from rfl,
    show Curvature_Higgs_CT_L4c 2 2 4 2 = (0, 0, 0) from rfl,
    show Curvature_Higgs_CT_L4c 2 2 4 4 = (0, 0, 1) from rfl]
  push_cast
  ring

/-- Entry `(2, 4)` of the tree-level Hessian at an expanded VEV point. -/
theorem treeHess_24 (g : GenParams) (m : Fin 2 → ℝ) :
    treeHess g (MinimizeOrderVEV m) 2 4 = g.kappa * m 0 * m 1 := by
  simp only [treeHess, hessV]
  simp only [contract2]
  simp only [contract1]
  simp only [Curvature_Higgs_L3, Curvature_Higgs_L4,
    show Curvature_Higgs_L2 g 2 4 = 0 from rfl,
    show Curvature_Higgs_L4c 2 4 2 2 = (0, 0, 0) from rfl,
    show Curvature_Higgs_L4c 2 4 2 4 = (0, 0, 1) from rfl,
    show Curvature_Higgs_L4c 2 4 4 2 = (0, 0, 1) from rfl,
    show Curvature_Higgs_L4c 2 4 4 4 = (0, 0, 0) from rfl]
  push_cast
  ring

/-- Entry `(2, 4)` of the counterterm Hessian at an expanded VEV point. -/
theorem ctHess_24 (ct : CTParams) (m : Fin 2 → ℝ) :
    ctHess ct (MinimizeOrderVEV m) 2 4 = ct.dkappa * m 0 * m 1 := by
  simp only [ctHess, hessV]
  simp only [contract2]
  simp only [contract1]
  simp only [Curvature_Higgs_CT_L3, Curvature_Higgs_CT_L4,
    show Curvature_Higgs_CT_L2 ct 2 4 = 0 from rfl,
    show Curvature_Higgs_CT_L4c 2 4 2 2 = (0, 0, 0) from rfl,
    show Curvature_Higgs_CT_L4c 2 4 2 4 = (0, 0, 1) from rfl,
    show Curvature_Higgs_CT_L4c 2 4 4 2 = (0, 0, 1) from rfl,
    show Curvature_Higgs_CT_L4c 2 4 4 4 = (0, 0, 0) from rfl]
  push_cast
  ring

/-- Entry `(4, 2)` of the tree-level Hessian at an expanded VEV point. -/
theorem treeHess_42 (g : GenParams) (m : Fin 2 → ℝ) :
    treeHess g (MinimizeOrderVEV m) 4 2 = g.kappa * m 0 * m 1 := by
  simp only [treeHess, hessV]
  simp only [contract2]
  simp only [contract1]
  simp only [Curvature_Higgs_L3, Curvature_Higgs_L4,
    show Curvature_Higgs_L2 g 4 2 = 0 from rfl,
    show Curvature_Higgs_L4c 4 2 2 2 = (0, 0, 0) from rfl,
    show Curvature_Higgs_L4c 4 2 2 4 = (0, 0, 1) from rfl,
    show Curvature_Higgs_L4c 4 2 4 2 = (0, 0, 1) from rfl,
    show Curvature_Higgs_L4c 4 2 4 4 = (0, 0, 0) from rfl]
  push_cast
  ring

/-- Entry `(4, 2)` of the counterterm Hessian at an expanded VEV point. -/
theorem ctHess_42 (ct : CTParams) (m : Fin 2 → ℝ) :
    ctHess ct (MinimizeOrderVEV m) 4 2 = ct.dkappa * m 0 * m 1 := by
  simp only [ctHess, hessV]
  simp only [contract2]
  simp only [contract1]
  simp only [Curvature_Higgs_CT_L3, Curvature_Higgs_CT_L4,
    show Curvature_Higgs_CT_L2 ct 4 2 = 0 from rfl,
    show Curvature_Higgs_CT_L4c 4 2 2 2 = (0, 0, 0) from rfl,
    show Curvature_Higgs_CT_L4c 4 2 2 4 = (0, 0, 1) from rfl,
    show Curvature_Higgs_CT_L4c 4 2 4 2 = (0, 0, 1) from rfl,
    show Curvature_Higgs_CT_L4c 4 2 4 4 = (0, 0, 0) from rfl]
  push_cast
  ring

/-- Entry `(4, 4)` of the tree-level Hessian at an expanded VEV point. -/
theorem treeHess_44 (g : GenParams) (m : Fin 2 → ℝ) :
    treeHess g (MinimizeOrderVEV m) 4 4 = -g.muSSq + g.kappa * m 0 * m 0 / 2 + 3 * g.lambdaS * m 1 * m 1 := by
  simp only [treeHess, hessV]
  simp only [contract2]
  simp only [contract1]
  simp only [Curvature_Higgs_L3, Curvature_Higgs_L4,
    show Curvature_Higgs_L2 g 4 4 = -g.muSSq from rfl,
    show Curvature_Higgs_L4c 4 4 2 2 = (0, 0, 1) from rfl,
    show Curvature_Higgs_L4c 4 4 2 4 = (0, 0, 0) from rfl,
    show Curvature_Higgs_L4c 4 4 4 2 = (0, 0, 0) from rfl,
    show Curvature_Higgs_L4c 4 4 4 4 = (0, 6, 0) from rfl]
  push_cast
  ring

/-- Entry `(4, 4)` of the counterterm Hessian at an expanded VEV point. -/
theorem ctHess_44 (ct : CTParams) (m : Fin 2 → ℝ) :
    ctHess ct (MinimizeOrderVEV m) 4 4 = -ct.dmuSSq + ct.dkappa * m 0 * m 0 / 2 + 3 * ct.dlambdaS * m 1 * m 1 := by
  simp only [ctHess, hessV]
  simp only [contract2]
  simp only [contract1]
  simp only [Curvature_Higgs_CT_L3, Curvature_Higgs_CT_L4,
    show Curvature_Higgs_CT_L2 ct 4 4 = -ct.dmuSSq from rfl,
    show Curvature_Higgs_CT_L4c 4 4 2 2 = (0, 0, 1) from rfl,
    show Curvature_Higgs_CT_L4c 4 4 2 4 = (0, 0, 0) from rfl,
    show Curvature_Higgs_CT_L4c 4 4 4 2 = (0, 0, 0) from rfl,
    show Curvature_Higgs_CT_L4c 4 4 4 4 = (0, 6, 0) from rfl]
  push_cast
  ring

/-- Direction-`0` gradient of the tree-level potential at an expanded VEV point. -/
theorem treeGrad_0 (g : GenParams) (m : Fin 2 → ℝ) :
    treeGrad g (MinimizeOrderVEV m) 0 = 0 := by
  simp only [treeGrad, gradV]
  simp only [contract3]
  simp only [contract2]
  simp only [contract1]
  simp only [Curvature_Higgs_L1, Curvature_Higgs_L3, Curvature_Higgs_L4,
    show Curvature_Higgs_L2 g 0 2 = 0 from rfl,
    show Curvature_Higgs_L2 g 0 4 = 0 from rfl,
    show Curvature_Higgs_L4c 0 2 2 2 = (0, 0, 0) from rfl,
    show Curvature_Higgs_L4c 0 2 2 4 = (0, 0, 0) from rfl,
    show Curvature_Higgs_L4c 0 2 4 2 = (0, 0, 0) from rfl,
    show Curvature_Higgs_L4c 0 2 4 4 = (0, 0, 0) from rfl,
    show Curvature_Higgs_L4c 0 4 2 2 = (0, 0, 0) from rfl,
    show Curvature_Higgs_L4c 0 4 2 4 = (0, 0, 0) from rfl,
    show Curvature_Higgs_L4c 0 4 4 2 = (0, 0, 0) from rfl,
    show Curvature_Higgs_L4c 0 4 4 4 = (0, 0, 0) from rfl]
  push_cast
  ring

/-- Direction-`0` gradient of the counterterm potential at an expanded VEV point. -/
theorem ctGrad_0 (ct : CTParams) (m : Fin 2 → ℝ) :
    ctGrad ct (MinimizeOrderVEV m) 0 = ct.dT1 := by
  simp only [ctGrad, gradV]
  simp only [contract3]
  simp only [contract2]
  simp only [contract1]
  simp only [Curvature_Higgs_CT_L3, Curvature_Higgs_CT_L4,
    show Curvature_Higgs_CT_L1 ct 0 = ct.dT1 from rfl,
    show Curvature_Higgs_CT_L2 ct 0 2 = 0 from rfl,
    show Curvature_Higgs_CT_L2 ct 0 4 = 0 from rfl,
    show Curvature_Higgs_CT_L4c 0 2 2 2 = (0, 0, 0) from rfl,
    show Curvature_Higgs_CT_L4c 0 2 2 4 = (0, 0, 0) from rfl,
    show Curvature_Higgs_CT_L4c 0 2 4 2 = (0, 0, 0) from rfl,
    show Curvature_Higgs_CT_L4c 0 2 4 4 = (0, 0, 0) from rfl,
    show Curvature_Higgs_CT_L4c 0 4 2 2 = (0, 0, 0) from rfl,
    show Curvature_Higgs_CT_L4c 0 4 2 4 = (0, 0, 0) from rfl,
    show Curvature_Higgs_CT_L4c 0 4 4 2 = (0, 0, 0) from rfl,
    show Curvature_Higgs_CT_L4c 0 4 4 4 = (0, 0, 0) from rfl]
  push_cast
  ring

/-- Direction-`1` gradient of the tree-level potential at an expanded VEV point. -/
theorem treeGrad_1 (g : GenParams) (m : Fin 2 → ℝ) :
    treeGrad g (MinimizeOrderVEV m) 1 = 0 := by
  simp only [treeGrad, gradV]
  simp only [contract3]
  simp only [contract2]
  simp only [contract1]
  simp only [Curvature_Higgs_L1, Curvature_Higgs_L3, Curvature_Higgs_L4,
    show Curvature_Higgs_L2 g 1 2 = 0 from rfl,
    show Curvature_Higgs_L2 g 1 4 = 0 from rfl,
    show Curvature_Higgs_L4c 1 2 2 2 = (0, 0, 0) from rfl,
    show Curvature_Higgs_L4c 1 2 2 4 = (0, 0, 0) from rfl,
    show Curvature_Higgs_L4c 1 2 4 2 = (0, 0, 0) from rfl,
    show Curvature_Higgs_L4c 1 2 4 4 = (0, 0, 0) from rfl,
    show Curvature_Higgs_L4c 1 4 2 2 = (0, 0, 0) from rfl,
    show Curvature_Higgs_L4c 1 4 2 4 = (0, 0, 0) from rfl,
    show Curvature_Higgs_L4c 1 4 4 2 = (0, 0, 0) from rfl,
    show Curvature_Higgs_L4c 1 4 4 4 = (0, 0, 0) from rfl]
  push_cast
  ring

/-- Direction-`1` gradient of the counterterm potential at an expanded VEV point. -/
theorem ctGrad_1 (ct : CTParams) (m : Fin 2 → ℝ) :
    ctGrad ct (MinimizeOrderVEV m) 1 = ct.dT2 := by
  simp only [ctGrad, gradV]
  simp only [contract3]
  simp only [contract2]
  simp only [contract1]
  simp only [Curvature_Higgs_CT_L3, Curvature_Higgs_CT_L4,
    show Curvature_Higgs_CT_L1 ct 1 = ct.dT2 from rfl,
    show Curvature_Higgs_CT_L2 ct 1 2 = 0 from rfl,
    show Curvature_Higgs_CT_L2 ct 1 4 = 0 from rfl,
    show Curvature_Higgs_CT_L4c 1 2 2 2 = (0, 0, 0) from rfl,
    show Curvature_Higgs_CT_L4c 1 2 2 4 = (0, 0, 0) from rfl,
    show Curvature_Higgs_CT_L4c 1 2 4 2 = (0, 0, 0) from rfl,
    show Curvature_Higgs_CT_L4c 1 2 4 4 = (0, 0, 0) from rfl,
    show Curvature_Higgs_CT_L4c 1 4 2 2 = (0, 0, 0) from rfl,
    show Curvature_Higgs_CT_L4c 1 4 2 4 = (0, 0, 0) from rfl,
    show Curvature_Higgs_CT_L4c 1 4 4 2 = (0, 0, 0) from rfl,
    show Curvature_Higgs_CT_L4c 1 4 4 4 = (0, 0, 0) from rfl]
  push_cast
  ring

/-- Direction-`2` gradient of the tree-level potential at an expanded VEV point. -/
theorem treeGrad_2 (g : GenParams) (m : Fin 2 → ℝ) :
    treeGrad g (MinimizeOrderVEV m) 2 = -g.muHSq * m 0 + g.lambdaH * m 0 ^ 3 + g.kappa * m 0 * m 1 ^ 2 / 2 := by
  simp only [treeGrad, gradV]
  simp only [contract3]
  simp only [contract2]
  simp only [contract1]
  simp only [Curvature_Higgs_L1, Curvature_Higgs_L3, Curvature_Higgs_L4,
    show Curvature_Higgs_L2 g 2 2 = -g.muHSq from rfl,
    show Curvature_Higgs_L2 g 2 4 = 0 from rfl,
    show Curvature_Higgs_L4c 2 2 2 2 = (6, 0, 0) from rfl,
    show Curvature_Higgs_L4c 2 2 2 4 = (0, 0, 0) from rfl,
    show Curvature_Higgs_L4c 2 2 4 2 = (0, 0, 0) from rfl,
    show Curvature_Higgs_L4c 2 2 4 4 = (0, 0, 1) from rfl,
    show Curvature_Higgs_L4c 2 4 2 2 = (0, 0, 0) from rfl,
    show Curvature_Higgs_L4c 2 4 2 4 = (0, 0, 1) from rfl,
    show Curvature_Higgs_L4c 2 4 4 2 = (0, 0, 1) from rfl,
    show Curvature_Higgs_L4c 2 4 4 4 = (0, 0, 0) from rfl]
  push_cast
  ring

/-- Direction-`2` gradient of the counterterm potential at an expanded VEV point. -/
theorem ctGrad_2 (ct : CTParams) (m : Fin 2 → ℝ) :
    ctGrad ct (MinimizeOrderVEV m) 2 = ct.dT3 - ct.dmuHSq * m 0 + ct.dlambdaH * m 0 ^ 3 + ct.dkappa * m 0 * m 1 ^ 2 / 2 := by
  simp only [ctGrad, gradV]
  simp only [contract3]
  simp only [contract2]
  simp only [contract1]
  simp only [Curvature_Higgs_CT_L3, Curvature_Higgs_CT_L4,
    show Curvature_Higgs_CT_L1 ct 2 = ct.dT3 from rfl,
    show Curvature_Higgs_CT_L2 ct 2 2 = -ct.dmuHSq from rfl,
    show Curvature_Higgs_CT_L2 ct 2 4 = 0 from rfl,
    show Curvature_Higgs_CT_L4c 2 2 2 2 = (6, 0, 0) from rfl,
    show Curvature_Higgs_CT_L4c 2 2 2 4 = (0, 0, 0) from rfl,
    show Curvature_Higgs_CT_L4c 2 2 4 2 = (0, 0, 0) from rfl,
    show Curvature_Higgs_CT_L4c 2 2 4 4 = (0, 0, 1) from rfl,
    show Curvature_Higgs_CT_L4c 2 4 2 2 = (0, 0, 0) from rfl,
    show Curvature_Higgs_CT_L4c 2 4 2 4 = (0, 0, 1) from rfl,
    show Curvature_Higgs_CT_L4c 2 4 4 2 = (0, 0, 1) from rfl,
    show Curvature_Higgs_CT_L4c 2 4 4 4 = (0, 0, 0) from rfl]
  push_cast
  ring

/-- Direction-`3` gradient of the tree-level potential at an expanded VEV point. -/
theorem treeGrad_3 (g : GenParams) (m : Fin 2 → ℝ) :
    treeGrad g (MinimizeOrderVEV m) 3 = 0 := by
  simp only [treeGrad, gradV]
  simp only [contract3]
  simp only [contract2]
  simp only [contract1]
  simp only [Curvature_Higgs_L1, Curvature_Higgs_L3, Curvature_Higgs_L4,
    show Curvature_Higgs_L2 g 3 2 = 0 from rfl,
    show Curvature_Higgs_L2 g 3 4 = 0 from rfl,
    show Curvature_Higgs_L4c 3 2 2 2 = (0, 0, 0) from rfl,
    show Curvature_Higgs_L4c 3 2 2 4 = (0, 0, 0) from rfl,
    show Curvature_Higgs_L4c 3 2 4 2 = (0, 0, 0) from rfl,
    show Curvature_Higgs_L4c 3 2 4 4 = (0, 0, 0) from rfl,
    show Curvature_Higgs_L4c 3 4 2 2 = (0, 0, 0) from rfl,
    show Curvature_Higgs_L4c 3 4 2 4 = (0, 0, 0) from rfl,
    show Curvature_Higgs_L4c 3 4 4 2 = (0, 0, 0) from rfl,
    show Curvature_Higgs_L4c 3 4 4 4 = (0, 0, 0) from rfl]
  push_cast
  ring

/-- Direction-`3` gradient of the counterterm potential at an expanded VEV point. -/
theorem ctGrad_3 (ct : CTParams) (m : Fin 2 → ℝ) :
    ctGrad ct (MinimizeOrderVEV m) 3 = ct.dT4 := by
  simp only [ctGrad, gradV]
  simp only [contract3]
  simp only [contract2]
  simp only [contract1]
  simp only [Curvature_Higgs_CT_L3, Curvature_Higgs_CT_L4,
    show Curvature_Higgs_CT_L1 ct 3 = ct.dT4 from rfl,
    show Curvature_Higgs_CT_L2 ct 3 2 = 0 from rfl,
    show Curvature_Higgs_CT_L2 ct 3 4 = 0 from rfl,
    show Curvature_Higgs_CT_L4c 3 2 2 2 = (0, 0, 0) from rfl,
    show Curvature_Higgs_CT_L4c 3 2 2 4 = (0, 0, 0) from rfl,
    show Curvature_Higgs_CT_L4c 3 2 4 2 = (0, 0, 0) from rfl,
    show Curvature_Higgs_CT_L4c 3 2 4 4 = (0, 0, 0) from rfl,
    show Curvature_Higgs_CT_L4c 3 4 2 2 = (0, 0, 0) from rfl,
    show Curvature_Higgs_CT_L4c 3 4 2 4 = (0, 0, 0) from rfl,
    show Curvature_Higgs_CT_L4c 3 4 4 2 = (0, 0, 0) from rfl,
    show Curvature_Higgs_CT_L4c 3 4 4 4 = (0, 0, 0) from rfl]
  push_cast
  ring

/-- Direction-`4` gradient of the tree-level potential at an expanded VEV point. -/
theorem treeGrad_4 (g : GenParams) (m : Fin 2 → ℝ) :
    treeGrad g (MinimizeOrderVEV m) 4 = -g.muSSq * m 1 + g.kappa * m 0 ^ 2 * m 1 / 2 + g.lambdaS * m 1 ^ 3 := by
  simp only [treeGrad, gradV]
  simp only [contract3]
  simp only [contract2]
  simp only [contract1]
  simp only [Curvature_Higgs_L1, Curvature_Higgs_L3, Curvature_Higgs_L4,
    show Curvature_Higgs_L2 g 4 2 = 0 from rfl,
    show Curvature_Higgs_L2 g 4 4 = -g.muSSq from rfl,
    show Curvature_Higgs_L4c 4 2 2 2 = (0, 0, 0) from rfl,
    show Curvature_Higgs_L4c 4 2 2 4 = (0, 0, 1) from rfl,
    show Curvature_Higgs_L4c 4 2 4 2 = (0, 0, 1) from rfl,
    show Curvature_Higgs_L4c 4 2 4 4 = (0, 0, 0) from rfl,
    show Curvature_Higgs_L4c 4 4 2 2 = (0, 0, 1) from rfl,
    show Curvature_Higgs_L4c 4 4 2 4 = (0, 0, 0) from rfl,
    show Curvature_Higgs_L4c 4 4 4 2 = (0, 0, 0) from rfl,
    show Curvature_Higgs_L4c 4 4 4 4 = (0, 6, 0) from rfl]
  push_cast
  ring

/-- Direction-`4` gradient of the counterterm potential at an expanded VEV point. -/
theorem ctGrad_4 (ct : CTParams) (m : Fin 2 → ℝ) :
    ctGrad ct (MinimizeOrderVEV m) 4 = ct.dT5 - ct.dmuSSq * m 1 + ct.dkappa * m 0 ^ 2 * m 1 / 2 + ct.dlambdaS * m 1 ^ 3 := by
  simp only [ctGrad, gradV]
  simp only [contract3]
  simp only [contract2]
  simp only [contract1]
  simp only [Curvature_Higgs_CT_L3, Curvature_Higgs_CT_L4,
    show Curvature_Higgs_CT_L1 ct 4 = ct.dT5 from rfl,
    show Curvature_Higgs_CT_L2 ct 4 2 = 0 from rfl,
    show Curvature_Higgs_CT_L2 ct 4 4 = -ct.dmuSSq from rfl,
    show Curvature_Higgs_CT_L4c 4 2 2 2 = (0, 0, 0) from rfl,
    show Curvature_Higgs_CT_L4c 4 2 2 4 = (0, 0, 1) from rfl,
    show Curvature_Higgs_CT_L4c 4 2 4 2 = (0, 0, 1) from rfl,
    show Curvature_Higgs_CT_L4c 4 2 4 4 = (0, 0, 0) from rfl,
    show Curvature_Higgs_CT_L4c 4 4 2 2 = (0, 0, 1) from rfl,
    show Curvature_Higgs_CT_L4c 4 4 2 4 = (0, 0, 0) from rfl,
    show Curvature_Higgs_CT_L4c 4 4 4 2 = (0, 0, 0) from rfl,
    show Curvature_Higgs_CT_L4c 4 4 4 4 = (0, 6, 0) from rfl]
  push_cast
  ring

/-- Direction-`5` gradient of the tree-level potential at an expanded VEV point. -/
theorem treeGrad_5 (g : GenParams) (m : Fin 2 → ℝ) :
    treeGrad g (MinimizeOrderVEV m) 5 = 0 := by
  simp only [treeGrad, gradV]
  simp only [contract3]
  simp only [contract2]
  simp only [contract1]
  simp only [Curvature_Higgs_L1, Curvature_Higgs_L3, Curvature_Higgs_L4,
    show Curvature_Higgs_L2 g 5 2 = 0 from rfl,
    show Curvature_Higgs_L2 g 5 4 = 0 from rfl,
    show Curvature_Higgs_L4c 5 2 2 2 = (0, 0, 0) from rfl,
    show Curvature_Higgs_L4c 5 2 2 4 = (0, 0, 0) from rfl,
    show Curvature_Higgs_L4c 5 2 4 2 = (0, 0, 0) from rfl,
    show Curvature_Higgs_L4c 5 2 4 4 = (0, 0, 0) from rfl,
    show Curvature_Higgs_L4c 5 4 2 2 = (0, 0, 0) from rfl,
    show Curvature_Higgs_L4c 5 4 2 4 = (0, 0, 0) from rfl,
    show Curvature_Higgs_L4c 5 4 4 2 = (0, 0, 0) from rfl,
    show Curvature_Higgs_L4c 5 4 4 4 = (0, 0, 0) from rfl]
  push_cast
  ring

/-- Direction-`5` gradient of the counterterm potential at an expanded VEV point. -/
theorem ctGrad_5 (ct : CTParams) (m : Fin 2 → ℝ) :
    ctGrad ct (MinimizeOrderVEV m) 5 = ct.dT6 := by
  simp only [ctGrad, gradV]
  simp only [contract3]
  simp only [contract2]
  simp only [contract1]
  simp only [Curvature_Higgs_CT_L3, Curvature_Higgs_CT_L4,
    show Curvature_Higgs_CT_L1 ct 5 = ct.dT6 from rfl,
    show Curvature_Higgs_CT_L2 ct 5 2 = 0 from rfl,
    show Curvature_Higgs_CT_L2 ct 5 4 = 0 from rfl,
    show Curvature_Higgs_CT_L4c 5 2 2 2 = (0, 0, 0) from rfl,
    show Curvature_Higgs_CT_L4c 5 2 2 4 = (0, 0, 0) from rfl,
    show Curvature_Higgs_CT_L4c 5 2 4 2 = (0, 0, 0) from rfl,
    show Curvature_Higgs_CT_L4c 5 2 4 4 = (0, 0, 0) from rfl,
    show Curvature_Higgs_CT_L4c 5 4 2 2 = (0, 0, 0) from rfl,
    show Curvature_Higgs_CT_L4c 5 4 2 4 = (0, 0, 0) from rfl,
    show Curvature_Higgs_CT_L4c 5 4 4 2 = (0, 0, 0) from rfl,
    show Curvature_Higgs_CT_L4c 5 4 4 4 = (0, 0, 0) from rfl]
  push_cast
  ring

/-- C4: after `SetCurvatureArrays` (resp. `set_CT_Pot_Par`) completes, the
populated rank-4 Higgs curvature tensors are fully index-symmetric: for every
index tuple and every permutation of it, `Curvature_Higgs_L4` (resp.
`Curvature_Higgs_CT_L4`) stores the same value, unassigned entries counting
as zero. -/
theorem C4_tensor_symmetry (g : GenParams) (ct : CTParams)
    (i j k l i' j' k' l' : Fin 6)
    (h : ([i, j, k, l] : List (Fin 6)).Perm [i', j', k', l']) :
    Curvature_Higgs_L4 g i j k l = Curvature_Higgs_L4 g i' j' k' l' ∧
    Curvature_Higgs_CT_L4 ct i j k l = Curvature_Higgs_CT_L4 ct i' j' k' l' := by
  have ht := L4key_perm h
  refine ⟨?_, ?_⟩
  · simp only [Curvature_Higgs_L4, Curvature_Higgs_L4c_key, ht]
  · simp only [Curvature_Higgs_CT_L4, Curvature_Higgs_CT_L4c_key, ht]

/-- C4 witness: the permutation `(0,0,4,4) → (4,0,4,0)` at concrete
parameter values. -/
theorem C4_tensor_symmetry_witness :
    Curvature_Higgs_L4 ⟨1, 2, 3, 4, 5, 6, 7, 8, 9⟩ 0 0 4 4 =
        Curvature_Higgs_L4 ⟨1, 2, 3, 4, 5, 6, 7, 8, 9⟩ 4 0 4 0 ∧
    Curvature_Higgs_CT_L4 ⟨1, 2, 3, 4, 5, 6, 7, 8, 9, 10, 11⟩ 0 0 4 4 =
        Curvature_Higgs_CT_L4 ⟨1, 2, 3, 4, 5, 6, 7, 8, 9, 10, 11⟩ 4 0 4 0 :=
  C4_tensor_symmetry ⟨1, 2, 3, 4, 5, 6, 7, 8, 9⟩ ⟨1, 2, 3, 4, 5, 6, 7, 8, 9, 10, 11⟩
    0 0 4 4 4 0 4 0 (by decide)

/-- C5 counterexample: `TripleHiggsCouplings` invoked on a freshly
constructed, unpopulated instance does not fail with a precondition error —
it silently invokes the missing prerequisite computations itself and
succeeds. -/
theorem C5_gate_enforcement_counterexample :
    TripleHiggsCouplings_entry freshModelState =
      Except.ok { SetCurvatureDone := true, CalcCouplingsdone := true } := rfl

/-- C5 (amended): `calc_CT` invoked before `SetCurvatureArrays` or before
`CalculatePhysicalCouplings` fails immediately with a precondition error and
performs no computation; `TripleHiggsCouplings`, by contrast, never fails —
it computes the missing prerequisites itself. -/
theorem C5_gate_enforcement (v vs : ℝ) (Nabla : Fin 6 → ℝ)
    (Hesse : Fin 6 → Fin 6 → ℝ) :
    calc_CT freshModelState v vs Nabla Hesse =
        Except.error ("calc_CT was called before SetCurvatureArrays()!") ∧
    calc_CT { SetCurvatureDone := true, CalcCouplingsdone := false }
        v vs Nabla Hesse =
        Except.error ("calc_CT was called before CalculatePhysicalCouplings()!") ∧
    (∀ st : ModelState, TripleHiggsCouplings_entry st =
        Except.ok { SetCurvatureDone := true, CalcCouplingsdone := true }) := by
  refine ⟨rfl, rfl, ?_⟩
  intro st
  obtain ⟨a, b⟩ := st
  cases a <;> cases b <;> rfl

/-- C6: the label list of `addLegendCT` does not match, position by
position, the assignments performed by `set_CT_Pot_Par`: positions 0, 1 and
5-10 agree, but the legend names `dmuSSq`, `dlambdaS`, `dkappa` at positions
2, 3, 4 while `set_CT_Pot_Par` assigns `par[2]` to `dkappa`, `par[3]` to
`dmuSSq` and `par[4]` to `dlambdaS` (the ordering used by `calc_CT`). -/
theorem C6_legendCT_order :
    addLegendCT = ["dmuHSq", "dlambdaH", "dmuSSq", "dlambdaS", "dkappa",
      "dT1", "dT2", "dT3", "dT4", "dT5", "dT6"] ∧
    (∀ par : Fin 11 → ℝ,
      (set_CT_Pot_Par par).dmuHSq = par 0 ∧
      (set_CT_Pot_Par par).dlambdaH = par 1 ∧
      (set_CT_Pot_Par par).dkappa = par 2 ∧
      (set_CT_Pot_Par par).dmuSSq = par 3 ∧
      (set_CT_Pot_Par par).dlambdaS = par 4 ∧
      (set_CT_Pot_Par par).dT1 = par 5 ∧
      (set_CT_Pot_Par par).dT6 = par 10) ∧
    (set_CT_Pot_Par (fun i => if i = 2 then 1 else 0)).dkappa = 1 ∧
    (set_CT_Pot_Par (fun i => if i = 2 then 1 else 0)).dmuSSq = 0 ∧
    (1 : ℝ) ≠ 0 := by
  refine ⟨rfl, fun par => ⟨rfl, rfl, rfl, rfl, rfl, rfl, rfl⟩, ?_, ?_, one_ne_zero⟩
  · simp [set_CT_Pot_Par]
  · simp [set_CT_Pot_Par]

/-- C7 counterexample: for the record whose six numeric fields are, in the
order asserted by the claim, `m1 = 95`, `m2 = 650`, `angle = 0.3`,
`EW VEV = 246`, `hidden mass = 1000`, `coupling = 1`, `ReadAndSet` stores
246 — the fourth field — as the mixing angle `alpha`, not 0.3. -/
theorem C7_field_order_counterexample :
    (ReadAndSet_members false [95, 650, 0.3, 246, 1000, 1]).alpha = 246 ∧
    (246 : ℝ) ≠ 0.3 := by
  refine ⟨rfl, by norm_num⟩

/-- C7 (amended): `ReadAndSet` interprets the six numeric fields of a record
(after the optional leading index column) in the fixed order: first mass
eigenvalue `MH1`, second mass eigenvalue `MH2`, hidden-sector VEV-defining
mass `MX`, mixing angle `alpha`, electroweak VEV `v`, gauge coupling `gX`
(and derives `vs = MX / gX`). -/
theorem C7_field_order (f0 f1 f2 f3 f4 f5 idx : ℝ) :
    ReadAndSet_members false [f0, f1, f2, f3, f4, f5] =
      { MH1 := f0, MH2 := f1, MX := f2, alpha := f3, v := f4, gX := f5,
        vs := f2 / f5 } ∧
    ReadAndSet_members true [idx, f0, f1, f2, f3, f4, f5] =
      { MH1 := f0, MH2 := f1, MX := f2, alpha := f3, v := f4, gX := f5,
        vs := f2 / f5 } :=
  ⟨rfl, rfl⟩

/-- C8: a record with fewer than six numeric fields is not rejected:
`ReadAndSet` silently stores 0 for every missing field (C++11 failed
extraction) and proceeds into `set_gen`; no parse error is ever signalled. -/
theorem C8_short_record_no_parse_error :
    ReadAndSet_members false [95, 650] =
      { MH1 := 95, MH2 := 650, MX := 0, alpha := 0, v := 0, gX := 0,
        vs := 0 / 0 } ∧
    (∀ SMConstants : ISMConstants,
      ReadAndSet SMConstants false [95, 650] =
        set_gen SMConstants (ReadAndSet_par
          (ReadAndSet_members false [95, 650]))) :=
  ⟨rfl, fun _ => rfl⟩

/-- C9: a record whose gauge coupling field is zero is not rejected:
`ReadAndSet` computes `vs = MX / gX` with `gX = 0` (IEEE Inf in the C++
implementation, where this embedding keeps the literal division term) and
proceeds unconditionally into `set_gen`; no numeric-degeneracy check
exists. -/
theorem C9_zero_divisor_no_failure :
    (ReadAndSet_members false [95, 650, 1000, 0.3, 246, 0]).gX = 0 ∧
    (ReadAndSet_members false [95, 650, 1000, 0.3, 246, 0]).vs = 1000 / 0 ∧
    (∀ SMConstants : ISMConstants,
      ReadAndSet SMConstants false [95, 650, 1000, 0.3, 246, 0] =
        set_gen SMConstants (ReadAndSet_par
          (ReadAndSet_members false [95, 650, 1000, 0.3, 246, 0]))) :=
  ⟨rfl, rfl, fun _ => rfl⟩

/-- C10: `set_gen` unconditionally overwrites the electroweak VEV member `v`
with `SMConstants.C_vev0` before computing `muHSq`, `muSSq` and the tree
VEV configuration, while `lambdaH` and `kappa` are computed from the input
electroweak VEV `par 2`; the stored `v` equals the input VEV exactly when
`par 2 = C_vev0`. -/
theorem C10_vev_overwrite (SMConstants : ISMConstants) (par : Fin 6 → ℝ) :
    (set_gen SMConstants par).v = SMConstants.C_vev0 ∧
    (set_gen SMConstants par).muHSq =
      par 3 * par 3 * (set_gen SMConstants par).kappa / 2 +
        SMConstants.C_vev0 * SMConstants.C_vev0 *
          (set_gen SMConstants par).lambdaH ∧
    (set_gen SMConstants par).muSSq =
      (set_gen SMConstants par).kappa * SMConstants.C_vev0 *
          SMConstants.C_vev0 / 2 +
        (set_gen SMConstants par).lambdaS * par 3 * par 3 ∧
    (set_gen SMConstants par).lambdaH =
      (par 0 * par 0 * Real.cos (par 4) * Real.cos (par 4) +
        par 1 * par 1 * Real.sin (par 4) * Real.sin (par 4)) /
        (2 * par 2 * par 2) ∧
    (set_gen SMConstants par).kappa =
      (par 0 * par 0 - par 1 * par 1) * Real.sin (par 4) * Real.cos (par 4) /
        (par 2 * par 3) ∧
    vevTree (set_gen SMConstants par) 2 = SMConstants.C_vev0 ∧
    ((set_gen SMConstants par).v = par 2 ↔ par 2 = SMConstants.C_vev0) :=
  ⟨rfl, rfl, rfl, rfl, rfl, rfl, Iff.intro (fun h => h.symm) (fun h => h.symm)⟩

/-- C2: after the output of `calc_CT` is fed to `set_CT_Pot_Par`, the
counterterm Hessian at the tree VEV equals the negative of the supplied
one-loop Hessian at the VEV-carrying entries (2,2), (2,4)/(4,2) and (4,4),
so the tree + counterterm + one-loop mass matrix equals the tree-level mass
matrix at those entries. -/
theorem C2_mass_matching (g : GenParams) (Nabla : Fin 6 → ℝ)
    (Hesse : Fin 6 → Fin 6 → ℝ) (parCT : Fin 11 → ℝ)
    (hv : g.v ≠ 0) (hvs : g.vs ≠ 0) (hsym : Hesse 2 4 = Hesse 4 2)
    (hok : calc_CT { SetCurvatureDone := true, CalcCouplingsdone := true }
      g.v g.vs Nabla Hesse = Except.ok parCT) :
    (ctHess (set_CT_Pot_Par parCT) (vevTree g) 2 2 = -Hesse 2 2 ∧
      ctHess (set_CT_Pot_Par parCT) (vevTree g) 2 4 = -Hesse 2 4 ∧
      ctHess (set_CT_Pot_Par parCT) (vevTree g) 4 2 = -Hesse 4 2 ∧
      ctHess (set_CT_Pot_Par parCT) (vevTree g) 4 4 = -Hesse 4 4) ∧
    (treeHess g (vevTree g) 2 2 + ctHess (set_CT_Pot_Par parCT) (vevTree g) 2 2 +
        Hesse 2 2 = treeHess g (vevTree g) 2 2 ∧
      treeHess g (vevTree g) 2 4 + ctHess (set_CT_Pot_Par parCT) (vevTree g) 2 4 +
        Hesse 2 4 = treeHess g (vevTree g) 2 4 ∧
      treeHess g (vevTree g) 4 2 + ctHess (set_CT_Pot_Par parCT) (vevTree g) 4 2 +
        Hesse 4 2 = treeHess g (vevTree g) 4 2 ∧
      treeHess g (vevTree g) 4 4 + ctHess (set_CT_Pot_Par parCT) (vevTree g) 4 4 +
        Hesse 4 4 = treeHess g (vevTree g) 4 4) := by
  have hpar : calc_CT_par g.v g.vs Nabla Hesse = parCT := by
    simpa [calc_CT] using hok
  subst hpar
  have hdmuH : (set_CT_Pot_Par (calc_CT_par g.v g.vs Nabla Hesse)).dmuHSq =
      (-Hesse 2 2 * g.v - Hesse 2 4 * g.vs + 3 * Hesse 3 3 * g.v) / g.v / 2 := rfl
  have hdlH : (set_CT_Pot_Par (calc_CT_par g.v g.vs Nabla Hesse)).dlambdaH =
      (-Hesse 2 2 + Hesse 3 3) * (g.v ^ 2)⁻¹ / 2 := rfl
  have hdk : (set_CT_Pot_Par (calc_CT_par g.v g.vs Nabla Hesse)).dkappa =
      -Hesse 2 4 / g.v / g.vs := rfl
  have hdmuS : (set_CT_Pot_Par (calc_CT_par g.v g.vs Nabla Hesse)).dmuSSq =
      (-Hesse 2 4 * g.v - g.vs * (Hesse 4 4 - 3 * Hesse 5 5)) / g.vs / 2 := rfl
  have hdlS : (set_CT_Pot_Par (calc_CT_par g.v g.vs Nabla Hesse)).dlambdaS =
      (-Hesse 4 4 + Hesse 5 5) * (g.vs ^ 2)⁻¹ / 2 := rfl
  have e22 : ctHess (set_CT_Pot_Par (calc_CT_par g.v g.vs Nabla Hesse))
      (vevTree g) 2 2 = -Hesse 2 2 := by
    simp only [vevTree]
    rw [ctHess_22]
    simp only [show vevTreeMin g 0 = g.v from rfl,
      show vevTreeMin g 1 = g.vs from rfl]
    rw [hdmuH, hdlH, hdk]
    field_simp
    ring
  have e24 : ctHess (set_CT_Pot_Par (calc_CT_par g.v g.vs Nabla Hesse))
      (vevTree g) 2 4 = -Hesse 2 4 := by
    simp only [vevTree]
    rw [ctHess_24]
    simp only [show vevTreeMin g 0 = g.v from rfl,
      show vevTreeMin g 1 = g.vs from rfl]
    rw [hdk]
    field_simp
    ring
  have e42 : ctHess (set_CT_Pot_Par (calc_CT_par g.v g.vs Nabla Hesse))
      (vevTree g) 4 2 = -Hesse 4 2 := by
    simp only [vevTree]
    rw [ctHess_42]
    simp only [show vevTreeMin g 0 = g.v from rfl,
      show vevTreeMin g 1 = g.vs from rfl]
    rw [hdk, ← hsym]
    field_simp
    ring
  have e44 : ctHess (set_CT_Pot_Par (calc_CT_par g.v g.vs Nabla Hesse))
      (vevTree g) 4 4 = -Hesse 4 4 := by
    simp only [vevTree]
    rw [ctHess_44]
    simp only [show vevTreeMin g 0 = g.v from rfl,
      show vevTreeMin g 1 = g.vs from rfl]
    rw [hdmuS, hdlS, hdk]
    field_simp
    ring
  refine ⟨⟨e22, e24, e42, e44⟩, ?_, ?_, ?_, ?_⟩
  · rw [e22]; ring
  · rw [e24]; ring
  · rw [e42]; ring
  · rw [e44]; ring

/-- C2 witness: the `(2,2)` cancellation at the concrete point `v = 2`,
`vs = 3`, unit one-loop Hessian, zero gradient. -/
theorem C2_mass_matching_witness :
    ctHess (set_CT_Pot_Par (calc_CT_par 2 3 (fun _ => 0) (fun _ _ => 1)))
      (vevTree ⟨2, 3, 0, 0, 0, 0, 0, 0, 0⟩) 2 2 = -1 := by
  have h := C2_mass_matching ⟨2, 3, 0, 0, 0, 0, 0, 0, 0⟩ (fun _ => 0)
    (fun _ _ => 1) (calc_CT_par 2 3 (fun _ => 0) (fun _ _ => 1))
    (by norm_num) (by norm_num) rfl rfl
  exact h.1.1

/-- C3 counterexample: the literal sum of the tree-level rank-1 tensor
entry, the counterterm rank-1 tensor entry and the one-loop gradient entry
is not zero in direction 2: with `C_vev0 = 1`, unit input record, zero
gradient and unit Hessian, `dT3 = HesseWeinberg(3,3)*v - NablaWeinberg(2)`
leaves the sum equal to 1. -/
theorem C3_tadpole_counterexample :
    ¬ (∀ i : Fin 6,
        Curvature_Higgs_L1 i +
          Curvature_Higgs_CT_L1 (set_CT_Pot_Par (calc_CT_par
            (set_gen ⟨1⟩ (fun _ => 1)).v (set_gen ⟨1⟩ (fun _ => 1)).vs
            (fun _ => 0) (fun _ _ => 1))) i +
          (fun _ : Fin 6 => (0 : ℝ)) i = 0) := by
  intro h
  have h2 := h 2
  rw [show Curvature_Higgs_CT_L1 (set_CT_Pot_Par (calc_CT_par
      (set_gen ⟨1⟩ (fun _ => 1)).v (set_gen ⟨1⟩ (fun _ => 1)).vs
      (fun _ => 0) (fun _ _ => 1))) 2 = (1 : ℝ) * 1 - 0 from rfl] at h2
  simp only [Curvature_Higgs_L1] at h2
  norm_num at h2

/-- C3 (amended): after `calc_CT` and `set_CT_Pot_Par`, in every field
direction the sum of the tree-level potential gradient, the counterterm
potential gradient and the supplied one-loop gradient, all evaluated at the
tree VEV, is zero.  (The rank-1 tensor entries alone do not cancel the
gradient in the VEV directions 2 and 4: `dT3` and `dT5` carry the
additional Goldstone offsets `HesseWeinberg(3,3)*v` and
`HesseWeinberg(5,5)*vs`, which are cancelled by the rank-2/rank-4
counterterm contributions to the gradient.) -/
theorem C3_tadpole_cancellation (SMConstants : ISMConstants) (par : Fin 6 → ℝ)
    (Nabla : Fin 6 → ℝ) (Hesse : Fin 6 → Fin 6 → ℝ) (parCT : Fin 11 → ℝ)
    (hv : SMConstants.C_vev0 ≠ 0) (hvs : par 3 ≠ 0)
    (hok : calc_CT { SetCurvatureDone := true, CalcCouplingsdone := true }
      (set_gen SMConstants par).v (set_gen SMConstants par).vs Nabla Hesse =
        Except.ok parCT) :
    ∀ i : Fin 6,
      treeGrad (set_gen SMConstants par) (vevTree (set_gen SMConstants par)) i +
        ctGrad (set_CT_Pot_Par parCT) (vevTree (set_gen SMConstants par)) i +
        Nabla i = 0 := by
  have hpar : calc_CT_par (set_gen SMConstants par).v (set_gen SMConstants par).vs
      Nabla Hesse = parCT := by
    simpa [calc_CT] using hok
  subst hpar
  have hv' : (set_gen SMConstants par).v ≠ 0 := hv
  have hvs' : (set_gen SMConstants par).vs ≠ 0 := hvs
  have hm0 : vevTreeMin (set_gen SMConstants par) 0 = (set_gen SMConstants par).v := rfl
  have hm1 : vevTreeMin (set_gen SMConstants par) 1 = (set_gen SMConstants par).vs := rfl
  have hmuH : (set_gen SMConstants par).muHSq =
      (set_gen SMConstants par).vs * (set_gen SMConstants par).vs *
          (set_gen SMConstants par).kappa / 2 +
        (set_gen SMConstants par).v * (set_gen SMConstants par).v *
          (set_gen SMConstants par).lambdaH := rfl
  have hmuS : (set_gen SMConstants par).muSSq =
      (set_gen SMConstants par).kappa * (set_gen SMConstants par).v *
          (set_gen SMConstants par).v / 2 +
        (set_gen SMConstants par).lambdaS * (set_gen SMConstants par).vs *
          (set_gen SMConstants par).vs := rfl
  have hdT1 : (set_CT_Pot_Par (calc_CT_par (set_gen SMConstants par).v
      (set_gen SMConstants par).vs Nabla Hesse)).dT1 = -Nabla 0 := rfl
  have hdT2 : (set_CT_Pot_Par (calc_CT_par (set_gen SMConstants par).v
      (set_gen SMConstants par).vs Nabla Hesse)).dT2 = -Nabla 1 := rfl
  have hdT3 : (set_CT_Pot_Par (calc_CT_par (set_gen SMConstants par).v
      (set_gen SMConstants par).vs Nabla Hesse)).dT3 =
      Hesse 3 3 * (set_gen SMConstants par).v - Nabla 2 := rfl
  have hdT4 : (set_CT_Pot_Par (calc_CT_par (set_gen SMConstants par).v
      (set_gen SMConstants par).vs Nabla Hesse)).dT4 = -Nabla 3 := rfl
  have hdT5 : (set_CT_Pot_Par (calc_CT_par (set_gen SMConstants par).v
      (set_gen SMConstants par).vs Nabla Hesse)).dT5 =
      Hesse 5 5 * (set_gen SMConstants par).vs - Nabla 4 := rfl
  have hdT6 : (set_CT_Pot_Par (calc_CT_par (set_gen SMConstants par).v
      (set_gen SMConstants par).vs Nabla Hesse)).dT6 = -Nabla 5 := rfl
  have hdmuH : (set_CT_Pot_Par (calc_CT_par (set_gen SMConstants par).v
      (set_gen SMConstants par).vs Nabla Hesse)).dmuHSq =
      (-Hesse 2 2 * (set_gen SMConstants par).v -
        Hesse 2 4 * (set_gen SMConstants par).vs +
        3 * Hesse 3 3 * (set_gen SMConstants par).v) /
        (set_gen SMConstants par).v / 2 := rfl
  have hdlH : (set_CT_Pot_Par (calc_CT_par (set_gen SMConstants par).v
      (set_gen SMConstants par).vs Nabla Hesse)).dlambdaH =
      (-Hesse 2 2 + Hesse 3 3) * ((set_gen SMConstants par).v ^ 2)⁻¹ / 2 := rfl
  have hdk : (set_CT_Pot_Par (calc_CT_par (set_gen SMConstants par).v
      (set_gen SMConstants par).vs Nabla Hesse)).dkappa =
      -Hesse 2 4 / (set_gen SMConstants par).v / (set_gen SMConstants par).vs := rfl
  have hdmuS : (set_CT_Pot_Par (calc_CT_par (set_gen SMConstants par).v
      (set_gen SMConstants par).vs Nabla Hesse)).dmuSSq =
      (-Hesse 2 4 * (set_gen SMConstants par).v -
        (set_gen SMConstants par).vs * (Hesse 4 4 - 3 * Hesse 5 5)) /
        (set_gen SMConstants par).vs / 2 := rfl
  have hdlS : (set_CT_Pot_Par (calc_CT_par (set_gen SMConstants par).v
      (set_gen SMConstants par).vs Nabla Hesse)).dlambdaS =
      (-Hesse 4 4 + Hesse 5 5) * ((set_gen SMConstants par).vs ^ 2)⁻¹ / 2 := rfl
  have h0 : treeGrad (set_gen SMConstants par) (vevTree (set_gen SMConstants par)) 0 +
      ctGrad (set_CT_Pot_Par (calc_CT_par (set_gen SMConstants par).v
        (set_gen SMConstants par).vs Nabla Hesse))
        (vevTree (set_gen SMConstants par)) 0 + Nabla 0 = 0 := by
    simp only [vevTree]
    rw [treeGrad_0, ctGrad_0, hdT1]
    ring
  have h1 : treeGrad (set_gen SMConstants par) (vevTree (set_gen SMConstants par)) 1 +
      ctGrad (set_CT_Pot_Par (calc_CT_par (set_gen SMConstants par).v
        (set_gen SMConstants par).vs Nabla Hesse))
        (vevTree (set_gen SMConstants par)) 1 + Nabla 1 = 0 := by
    simp only [vevTree]
    rw [treeGrad_1, ctGrad_1, hdT2]
    ring
  have h3 : treeGrad (set_gen SMConstants par) (vevTree (set_gen SMConstants par)) 3 +
      ctGrad (set_CT_Pot_Par (calc_CT_par (set_gen SMConstants par).v
        (set_gen SMConstants par).vs Nabla Hesse))
        (vevTree (set_gen SMConstants par)) 3 + Nabla 3 = 0 := by
    simp only [vevTree]
    rw [treeGrad_3, ctGrad_3, hdT4]
    ring
  have h5 : treeGrad (set_gen SMConstants par) (vevTree (set_gen SMConstants par)) 5 +
      ctGrad (set_CT_Pot_Par (calc_CT_par (set_gen SMConstants par).v
        (set_gen SMConstants par).vs Nabla Hesse))
        (vevTree (set_gen SMConstants par)) 5 + Nabla 5 = 0 := by
    simp only [vevTree]
    rw [treeGrad_5, ctGrad_5, hdT6]
    ring
  have h2 : treeGrad (set_gen SMConstants par) (vevTree (set_gen SMConstants par)) 2 +
      ctGrad (set_CT_Pot_Par (calc_CT_par (set_gen SMConstants par).v
        (set_gen SMConstants par).vs Nabla Hesse))
        (vevTree (set_gen SMConstants par)) 2 + Nabla 2 = 0 := by
    simp only [vevTree]
    rw [treeGrad_2, ctGrad_2]
    simp only [hm0, hm1]
    rw [hmuH, hdT3, hdmuH, hdlH, hdk]
    field_simp
    ring
  have h4 : treeGrad (set_gen SMConstants par) (vevTree (set_gen SMConstants par)) 4 +
      ctGrad (set_CT_Pot_Par (calc_CT_par (set_gen SMConstants par).v
        (set_gen SMConstants par).vs Nabla Hesse))
        (vevTree (set_gen SMConstants par)) 4 + Nabla 4 = 0 := by
    simp only [vevTree]
    rw [treeGrad_4, ctGrad_4]
    simp only [hm0, hm1]
    rw [hmuS, hdT5, hdmuS, hdlS, hdk]
    field_simp
    ring
  intro i
  fin_cases i
  exacts [h0, h1, h2, h3, h4, h5]

/-- C3 witness: the direction-2 cancellation at the concrete point
`C_vev0 = 1`, unit input record, zero one-loop gradient, unit one-loop
Hessian. -/
theorem C3_tadpole_cancellation_witness :
    treeGrad (set_gen ⟨1⟩ (fun _ => 1)) (vevTree (set_gen ⟨1⟩ (fun _ => 1))) 2 +
      ctGrad (set_CT_Pot_Par (calc_CT_par (set_gen ⟨1⟩ (fun _ => 1)).v
          (set_gen ⟨1⟩ (fun _ => 1)).vs (fun _ => 0) (fun _ _ => 1)))
        (vevTree (set_gen ⟨1⟩ (fun _ => 1))) 2 + (fun _ : Fin 6 => (0 : ℝ)) 2 = 0 :=
  C3_tadpole_cancellation ⟨1⟩ (fun _ => 1) (fun _ => 0) (fun _ _ => 1) _
    ((by norm_num : (1 : ℝ) ≠ 0)) ((by norm_num : (1 : ℝ) ≠ 0)) rfl 2

/-- Conjugation of a diagonal 2×2 matrix by the rotation `rotM`. -/
theorem rot_diag_rot (a x y : ℝ) :
    rotM a * diag2 x y * (rotM a)ᵀ =
      Matrix.of fun i j => match i, j with
      | 0, 0 => x * Real.cos a ^ 2 + y * Real.sin a ^ 2
      | 0, 1 => (x - y) * Real.sin a * Real.cos a
      | 1, 0 => (x - y) * Real.sin a * Real.cos a
      | 1, 1 => y * Real.cos a ^ 2 + x * Real.sin a ^ 2 := by
  ext i j
  fin_cases i <;> fin_cases j <;>
    (simp [rotM, diag2, Matrix.mul_apply, Matrix.transpose_apply,
      Fin.sum_univ_two]; ring)

set_option maxHeartbeats 1600000 in
/-- C1: for an input record `[MH1, MH2, MX, alpha, v, gX]` processed by
`ReadAndSet`/`set_gen`, reconstructing the 2×2 mass-matrix block (the tree
Hessian at the stored tree VEV restricted to directions 2 and 4) and
conjugating with the orthogonal rotation `R(alpha)` recovers
`diag(MH1², MH2²)` exactly — provided the stored VEV `C_vev0` equals the
record electroweak VEV `v` (`set_gen` overwrites `v` with `C_vev0`, so for
`C_vev0 ≠ v` the block is built from two different VEV values). -/
theorem C1_reparametrization_roundtrip (SMConstants : ISMConstants)
    (MH1 MH2 MX alpha v gX : ℝ) (hv : v ≠ 0) (hvs : MX / gX ≠ 0)
    (hv0 : SMConstants.C_vev0 = v) :
    (rotM alpha)ᵀ * rotM alpha = 1 ∧
    treeMassBlock (ReadAndSet SMConstants false [MH1, MH2, MX, alpha, v, gX]) =
      rotM alpha * diag2 (MH1 ^ 2) (MH2 ^ 2) * (rotM alpha)ᵀ ∧
    (rotM alpha)ᵀ *
        treeMassBlock (ReadAndSet SMConstants false [MH1, MH2, MX, alpha, v, gX]) *
        rotM alpha = diag2 (MH1 ^ 2) (MH2 ^ 2) := by
  have pyth := Real.sin_sq_add_cos_sq alpha
  have hgX : gX ≠ 0 := by
    intro h
    rw [h, div_zero] at hvs
    exact hvs rfl
  have hMX : MX ≠ 0 := by
    intro h
    rw [h, zero_div] at hvs
    exact hvs rfl
  have hRR : (rotM alpha)ᵀ * rotM alpha = 1 := by
    ext a b
    fin_cases a <;> fin_cases b <;>
      simp [rotM, Matrix.mul_apply, Matrix.transpose_apply, Fin.sum_univ_two,
        Matrix.one_apply] <;> nlinarith [pyth]
  have hgv : (ReadAndSet SMConstants false [MH1, MH2, MX, alpha, v, gX]).v =
      SMConstants.C_vev0 := rfl
  have hgvs : (ReadAndSet SMConstants false [MH1, MH2, MX, alpha, v, gX]).vs =
      MX / gX := rfl
  have hglH : (ReadAndSet SMConstants false [MH1, MH2, MX, alpha, v, gX]).lambdaH =
      (MH1 * MH1 * Real.cos alpha * Real.cos alpha +
        MH2 * MH2 * Real.sin alpha * Real.sin alpha) / (2 * v * v) := rfl
  have hgk : (ReadAndSet SMConstants false [MH1, MH2, MX, alpha, v, gX]).kappa =
      (MH1 * MH1 - MH2 * MH2) * Real.sin alpha * Real.cos alpha /
        (v * (MX / gX)) := rfl
  have hglS : (ReadAndSet SMConstants false [MH1, MH2, MX, alpha, v, gX]).lambdaS =
      (MH2 * MH2 * Real.cos alpha * Real.cos alpha +
        MH1 * MH1 * Real.sin alpha * Real.sin alpha) /
        (2 * (MX / gX) * (MX / gX)) := rfl
  have hgmuH : (ReadAndSet SMConstants false [MH1, MH2, MX, alpha, v, gX]).muHSq =
      (ReadAndSet SMConstants false [MH1, MH2, MX, alpha, v, gX]).vs *
          (ReadAndSet SMConstants false [MH1, MH2, MX, alpha, v, gX]).vs *
          (ReadAndSet SMConstants false [MH1, MH2, MX, alpha, v, gX]).kappa / 2 +
        (ReadAndSet SMConstants false [MH1, MH2, MX, alpha, v, gX]).v *
          (ReadAndSet SMConstants false [MH1, MH2, MX, alpha, v, gX]).v *
          (ReadAndSet SMConstants false [MH1, MH2, MX, alpha, v, gX]).lambdaH := rfl
  have hgmuS : (ReadAndSet SMConstants false [MH1, MH2, MX, alpha, v, gX]).muSSq =
      (ReadAndSet SMConstants false [MH1, MH2, MX, alpha, v, gX]).kappa *
          (ReadAndSet SMConstants false [MH1, MH2, MX, alpha, v, gX]).v *
          (ReadAndSet SMConstants false [MH1, MH2, MX, alpha, v, gX]).v / 2 +
        (ReadAndSet SMConstants false [MH1, MH2, MX, alpha, v, gX]).lambdaS *
          (ReadAndSet SMConstants false [MH1, MH2, MX, alpha, v, gX]).vs *
          (ReadAndSet SMConstants false [MH1, MH2, MX, alpha, v, gX]).vs := rfl
  have hm0 : vevTreeMin (ReadAndSet SMConstants false [MH1, MH2, MX, alpha, v, gX]) 0 =
      (ReadAndSet SMConstants false [MH1, MH2, MX, alpha, v, gX]).v := rfl
  have hm1 : vevTreeMin (ReadAndSet SMConstants false [MH1, MH2, MX, alpha, v, gX]) 1 =
      (ReadAndSet SMConstants false [MH1, MH2, MX, alpha, v, gX]).vs := rfl
  have h22 : treeHess (ReadAndSet SMConstants false [MH1, MH2, MX, alpha, v, gX])
      (vevTree (ReadAndSet SMConstants false [MH1, MH2, MX, alpha, v, gX])) 2 2 =
      MH1 ^ 2 * Real.cos alpha ^ 2 + MH2 ^ 2 * Real.sin alpha ^ 2 := by
    simp only [vevTree]
    rw [treeHess_22]
    simp only [hm0, hm1]
    rw [hgmuH, hgv, hv0, hgvs, hglH, hgk]
    field_simp [hv, hgX, hMX]
    ring
  have h24 : treeHess (ReadAndSet SMConstants false [MH1, MH2, MX, alpha, v, gX])
      (vevTree (ReadAndSet SMConstants false [MH1, MH2, MX, alpha, v, gX])) 2 4 =
      (MH1 ^ 2 - MH2 ^ 2) * Real.sin alpha * Real.cos alpha := by
    simp only [vevTree]
    rw [treeHess_24]
    simp only [hm0, hm1]
    rw [hgv, hv0, hgvs, hgk]
    field_simp [hv, hgX, hMX]
    ring
  have h42 : treeHess (ReadAndSet SMConstants false [MH1, MH2, MX, alpha, v, gX])
      (vevTree (ReadAndSet SMConstants false [MH1, MH2, MX, alpha, v, gX])) 4 2 =
      (MH1 ^ 2 - MH2 ^ 2) * Real.sin alpha * Real.cos alpha := by
    simp only [vevTree]
    rw [treeHess_42]
    simp only [hm0, hm1]
    rw [hgv, hv0, hgvs, hgk]
    field_simp [hv, hgX, hMX]
    ring
  have h44 : treeHess (ReadAndSet SMConstants false [MH1, MH2, MX, alpha, v, gX])
      (vevTree (ReadAndSet SMConstants false [MH1, MH2, MX, alpha, v, gX])) 4 4 =
      MH2 ^ 2 * Real.cos alpha ^ 2 + MH1 ^ 2 * Real.sin alpha ^ 2 := by
    simp only [vevTree]
    rw [treeHess_44]
    simp only [hm0, hm1]
    rw [hgmuS, hgv, hv0, hgvs, hglS, hgk]
    field_simp [hv, hgX, hMX]
    ring
  have hBlock : treeMassBlock (ReadAndSet SMConstants false [MH1, MH2, MX, alpha, v, gX]) =
      rotM alpha * diag2 (MH1 ^ 2) (MH2 ^ 2) * (rotM alpha)ᵀ := by
    rw [rot_diag_rot]
    ext a b
    fin_cases a <;> fin_cases b
    exacts [h22, h24, h42, h44]
  refine ⟨hRR, hBlock, ?_⟩
  rw [hBlock]
  rw [← Matrix.mul_assoc ((rotM alpha)ᵀ)
    (rotM alpha * diag2 (MH1 ^ 2) (MH2 ^ 2)) ((rotM alpha)ᵀ)]
  rw [← Matrix.mul_assoc ((rotM alpha)ᵀ) (rotM alpha) (diag2 (MH1 ^ 2) (MH2 ^ 2))]
  rw [hRR, Matrix.one_mul, Matrix.mul_assoc, hRR, Matrix.mul_one]

/-- C1 witness: the spec section 8 representative point `m1 = 95`,
`m2 = 650`, `angle = 0.3`, electroweak VEV 246, hidden VEV `1000 / 1`,
gauge coupling 1, with `C_vev0 = 246`. -/
theorem C1_reparametrization_roundtrip_witness :
    (rotM 0.3)ᵀ *
        treeMassBlock (ReadAndSet ⟨246⟩ false [95, 650, 1000, 0.3, 246, 1]) *
        rotM 0.3 = diag2 (95 ^ 2) (650 ^ 2) :=
  (C1_reparametrization_roundtrip ⟨246⟩ 95 650 1000 0.3 246 1 (by norm_num)
    (by norm_num) rfl).2.2

end VDM

end
